import Mathlib

/-!
Verification of the electronics-store admin UI sources.

The embedding mirrors the TypeScript sources:
- `ImageUpload` component (`handleFileChange`, `prepareImageUrl`,
  `ALLOWED_IMAGE_TYPES`, `MAX_FILE_SIZE`);
- `CategoryForm` component (yup `schema`, edit-mode `reset` values,
  parent-category dropdown filter, `onSubmit` request construction and
  response handling).

JavaScript strings are modelled as Lean `String`; `String.prototype.includes`
and `String.prototype.startsWith` are modelled on the character lists.
Imported runtime constants (`API_BASE_URL`) and the stored token
(`getToken()`) become explicit parameters; JS `null` becomes `Option.none`,
and JS string truthiness (`if (token)`) is modelled as "some non-empty string".
-/

namespace StoreAdmin

/-- JS `hay.startsWith(needle)` on character lists. -/
def startsWithChars : List Char → List Char → Bool
  | _, [] => true
  | [], _ :: _ => false
  | a :: as, b :: bs => a == b && startsWithChars as bs

/-- JS `s.startsWith(p)`. -/
def strStarts (s p : String) : Bool :=
  startsWithChars s.data p.data

/-- Helper for `stringIncludes`: does `sub` occur in `hay` as a contiguous run? -/
def containsChars (sub : List Char) : List Char → Bool
  | [] => startsWithChars [] sub
  | c :: t => startsWithChars (c :: t) sub || containsChars sub t

/-- JS `s.includes(sub)`: substring containment. -/
def stringIncludes (s sub : String) : Bool :=
  containsChars sub.data s.data

/-- A DOM `File` as consumed by the upload handler: name, byte size, MIME type. -/
structure JsFile where
  name : String
  size : Nat
  type : String
deriving DecidableEq

/-- A `showNotification(message, level)` call. -/
structure Notification where
  message : String
  level : String
deriving DecidableEq

/-- `ALLOWED_IMAGE_TYPES` from the ImageUpload source (declared there; note the
validation code itself never consults it). -/
def ALLOWED_IMAGE_TYPES : List String :=
  ["image/jpeg", "image/jpg", "image/png", "image/gif", "image/webp"]

/-- `MAX_FILE_SIZE = 5 * 1024 * 1024` from the ImageUpload source. -/
def MAX_FILE_SIZE : Nat := 5 * 1024 * 1024

/-- The rejection notification emitted by `handleFileChange` for an oversize file. -/
def tooLargeNotif (f : JsFile) : Notification :=
  ⟨"File " ++ f.name ++ " is too large. Maximum size is 5MB.", "error"⟩

/-- The rejection notification emitted by `handleFileChange` for a non-image file. -/
def notImageNotif (f : JsFile) : Notification :=
  ⟨"File " ++ f.name ++ " is not an image.", "error"⟩

/-- `handleFileChange` of the ImageUpload component, restricted to its observable
effects: for each selected file in order, it rejects files with
`size > 5 * 1024 * 1024` (notification, no upload), then rejects files whose
`type` does not start with `"image/"` (notification, no upload), and otherwise
calls `onUpload(file)`. Returns (files passed to `onUpload`, notifications
shown), each in selection order. The function is total: no exception escapes. -/
def handleFileChange : List JsFile → List JsFile × List Notification
  | [] => ([], [])
  | f :: rest =>
    let tail := handleFileChange rest
    if f.size > 5 * 1024 * 1024 then
      (tail.1, tooLargeNotif f :: tail.2)
    else if !(strStarts f.type "image/") then
      (tail.1, notImageNotif f :: tail.2)
    else
      (f :: tail.1, tail.2)

/-- The acceptance predicate implicit in `handleFileChange`: within the size
limit and MIME type starting with `"image/"`. -/
def validFile (f : JsFile) : Bool :=
  decide (f.size ≤ 5 * 1024 * 1024) && strStarts f.type "image/"

/-- The notification `handleFileChange` shows for a rejected file: the size
check runs first, so an oversize non-image file gets the size message. -/
def rejectionNotif (f : JsFile) : Notification :=
  if f.size > 5 * 1024 * 1024 then tooLargeNotif f else notImageNotif f

/-- `prepareImageUrl` from the ImageUpload source. `apiBaseUrl` models the
imported `API_BASE_URL` constant and `token` the result of `getToken()`
(`none` = JS `null`); `if (token)` is JS truthiness, false for `""`. -/
def prepareImageUrl (apiBaseUrl : String) (token : Option String)
    (imageUrl : String) : String :=
  if strStarts imageUrl "http://" || strStarts imageUrl "https://" then
    if stringIncludes imageUrl apiBaseUrl then
      match token with
      | some t =>
        if t == "" then imageUrl
        else
          imageUrl ++ (if stringIncludes imageUrl "?" then "&" else "?")
            ++ "auth_token=" ++ t
      | none => imageUrl
    else imageUrl
  else
    let normalizedUrl :=
      if strStarts imageUrl "/" then apiBaseUrl ++ imageUrl
      else apiBaseUrl ++ "/" ++ imageUrl
    match token with
    | some t =>
      if t == "" then normalizedUrl else normalizedUrl ++ "?auth_token=" ++ t
    | none => normalizedUrl

/-! ## CategoryForm -/

/-- The form-local data of the CategoryForm (`CategoryFormData` in the source):
`parentCategoryId` is `number | null`, modelled as `Option Int`. The `status`
is kept outside the form in the independent `isActive` toggle. -/
structure CategoryFormData where
  name : String
  description : String
  parentCategoryId : Option Int
deriving DecidableEq

/-- A field-level validation error produced by the yup `schema`:
(field name, error message). -/
structure FieldError where
  field : String
  message : String
deriving DecidableEq

/-- The yup `schema` of the CategoryForm: `name` and `description` are
`string().required(...)` (an empty string fails `required`), and
`parentCategoryId` is `number().nullable()` with a NaN-to-null transform,
which never produces an error. Returns the list of field errors. -/
def schemaValidate (data : CategoryFormData) : List FieldError :=
  (if data.name == "" then [⟨"name", "Category name is required"⟩] else [])
    ++ (if data.description == "" then
          [⟨"description", "Description is required"⟩] else [])

/-- The input a yup number field can receive before the schema transform:
a number, JS `NaN`, or JS `null`. -/
inductive NumInput where
  | num (n : Int)
  | nan
  | null
deriving DecidableEq

/-- The `transform((value) => (isNaN(value) ? null : value))` on
`parentCategoryId` in the yup `schema`: NaN is coerced to null. -/
def parentCategoryIdTransform : NumInput → Option Int
  | .num n => some n
  | .nan => none
  | .null => none

/-- react-hook-form's `handleSubmit(onSubmit)` gating with the yup resolver:
`onSubmit` receives the form data iff the schema reports no errors; otherwise
the errors are rendered inline and `onSubmit` is never invoked. -/
def handleSubmitGate (data : CategoryFormData) : Option CategoryFormData :=
  if schemaValidate data == [] then some data else none

/-- A JSON value occurring in the request payload. -/
inductive JsValue where
  | vNull
  | vStr (s : String)
  | vNum (n : Int)
deriving DecidableEq

/-- The request body built by `onSubmit`, as a JS object: an ordered list of
(key, value) pairs. `name` and `description` are copied; the spread
`...(data.parentCategoryId !== null && { parentCategoryId: data.parentCategoryId })`
adds the `parentCategoryId` key only when the value is not null; `status` is
attached from the independent `isActive` toggle. -/
def buildRequestData (data : CategoryFormData) (isActive : Bool) :
    List (String × JsValue) :=
  [("name", JsValue.vStr data.name), ("description", JsValue.vStr data.description)]
    ++ (match data.parentCategoryId with
        | some p => [("parentCategoryId", JsValue.vNum p)]
        | none => [])
    ++ [("status", JsValue.vStr (if isActive then "ACTIVE" else "INACTIVE"))]

/-- A reference to a parent category inside a fetched category
(`category.parentCategory`). -/
structure ParentRef where
  id : Int
deriving DecidableEq

/-- The category payload returned by `getCategoryById` that the edit-mode
effect reads (`response.data`). -/
structure FetchedCategory where
  id : Int
  name : String
  description : String
  parentCategory : Option ParentRef
  status : String
deriving DecidableEq

/-- The values passed to `reset(...)` on a successful edit-mode load:
`parentCategoryId: category.parentCategory?.id || null` — JS falsy-or, so a
parent id of `0` collapses to null exactly like a missing parent. -/
def resetValues (category : FetchedCategory) : CategoryFormData :=
  { name := category.name
    description := category.description
    parentCategoryId :=
      match category.parentCategory with
      | some p => if p.id == 0 then none else some p.id
      | none => none }

/-- A `CategorySummary` (id + name) item of the parent-category dropdown. -/
structure CategorySummary where
  id : Int
  name : String
deriving DecidableEq

/-- The parent-category dropdown candidate filter:
`categories?.filter(cat => !isEditMode || (cat.id !== parseInt(id || '0')))`.
`editedId` is the already-parsed numeric route parameter. -/
def parentDropdownCandidates (isEditMode : Bool) (editedId : Int)
    (categories : List CategorySummary) : List CategorySummary :=
  categories.filter (fun cat => !isEditMode || cat.id != editedId)

/-- The response envelope of a create/update call: `{status, message}`.
`message` is `Option String` (`none` = absent/undefined). -/
structure ApiResponse where
  status : String
  message : Option String
deriving DecidableEq

/-- How a submitted create/update call resolves: a response, or a thrown
value (`some msg` = an `Error` with that `message`, `none` = a non-Error). -/
inductive SubmitResult where
  | ok (r : ApiResponse)
  | thrown (errMessage : Option String)
deriving DecidableEq

/-- `response?.message || 'Unknown error'`: JS falsy-or, so an absent or
empty message falls back to the generic text. -/
def respMsgOrUnknown : Option String → String
  | some s => if s == "" then "Unknown error" else s
  | none => "Unknown error"

/-- The `'Saving category...'` info notification shown at the top of `onSubmit`. -/
def savingNotif : Notification := ⟨"Saving category...", "info"⟩

/-- The network call issued by one `onSubmit` run: update in edit mode,
create otherwise. -/
inductive NetworkCall where
  | createCall (payload : List (String × JsValue))
  | updateCall (id : Int) (payload : List (String × JsValue))
deriving DecidableEq

/-- The single service call `onSubmit` makes (no retry logic exists). -/
def onSubmitCalls (isEditMode : Bool) (editedId : Int)
    (payload : List (String × JsValue)) : List NetworkCall :=
  [if isEditMode then NetworkCall.updateCall editedId payload
   else NetworkCall.createCall payload]

/-- The notifications and navigation of `onSubmit` after the call resolves:
on `status === 'SUCCESS'` a success notification and navigation to
`/categories`; on any other status an error notification with the server
message or the `'Unknown error'` fallback and no navigation; on a thrown
value the catch block shows `Error: <message>` and does not navigate. -/
def onSubmitOutcome (isEditMode : Bool) (result : SubmitResult) :
    List Notification × Option String :=
  match result with
  | .ok r =>
    if r.status == "SUCCESS" then
      ([savingNotif,
        ⟨if isEditMode then "Category updated successfully"
         else "Category created successfully", "success"⟩],
       some "/categories")
    else
      ([savingNotif,
        ⟨"Failed to " ++ (if isEditMode then "update" else "create")
          ++ " category: " ++ respMsgOrUnknown r.message, "error"⟩],
       none)
  | .thrown m =>
    ([savingNotif,
      ⟨"Error: " ++ (match m with | some s => s | none => "Unknown error"),
       "error"⟩],
     none)

/-- One full submit attempt: the react-hook-form gate runs the schema; if it
reports errors, `onSubmit` never runs, so no network call, no notification
and no navigation happen; otherwise `onSubmit` builds the payload, issues the
single create/update call and reacts to `result`. -/
def submitAttempt (isEditMode : Bool) (editedId : Int) (isActive : Bool)
    (data : CategoryFormData) (result : SubmitResult) :
    List NetworkCall × List Notification × Option String :=
  match handleSubmitGate data with
  | none => ([], [], none)
  | some d =>
    let payload := buildRequestData d isActive
    let outcome := onSubmitOutcome isEditMode result
    (onSubmitCalls isEditMode editedId payload, outcome.1, outcome.2)

/-- Number of occurrences of the query-separator character in a string. -/
def countQ (s : String) : Nat :=
  (s.data.filter (fun c => c == '?')).length

theorem countQ_append (a b : String) : countQ (a ++ b) = countQ a + countQ b := by
  simp [countQ, String.data_append, List.filter_append]

end StoreAdmin

namespace StoreAdmin

/-- C1: for every file selection, `handleFileChange` invokes the upload
callback exactly once per file for exactly the files of size at most
5,242,880 bytes whose MIME type starts with `"image/"`, preserving selection
order, and shows one rejection notification (and no upload) for every other
file; being a total function, it throws no exception. -/
theorem handleFileChange_uploads_valid_in_order (files : List JsFile) :
    (handleFileChange files).1 = files.filter validFile ∧
    (handleFileChange files).2 =
      (files.filter (fun f => !validFile f)).map rejectionNotif := by
  induction files with
  | nil => exact ⟨rfl, rfl⟩
  | cons f rest ih =>
    by_cases hs : f.size > 5 * 1024 * 1024
    · have hv : validFile f = false := by
        simp [validFile]
        omega
      simp [handleFileChange, hs, hv, rejectionNotif, ih.1, ih.2]
    · by_cases htp : strStarts f.type "image/"
      · have hv : validFile f = true := by
          simp [validFile, htp]
          omega
        simp [handleFileChange, hs, htp, hv, ih.1, ih.2]
      · have hv : validFile f = false := by
          simp [validFile, htp]
        simp [handleFileChange, hs, htp, hv, rejectionNotif, ih.1, ih.2]

end StoreAdmin

namespace StoreAdmin

/-- C2 counterexample: `"image/svg+xml"` is outside `ALLOWED_IMAGE_TYPES`,
yet `handleFileChange` invokes the upload callback for a small file of that
type instead of rejecting it — the validation never consults the constant. -/
theorem allowed_types_not_enforced :
    ALLOWED_IMAGE_TYPES.contains "image/svg+xml" = false ∧
    handleFileChange [⟨"a.svg", 10, "image/svg+xml"⟩]
      = ([⟨"a.svg", 10, "image/svg+xml"⟩], []) := by
  decide

/-- C2 amended: every file whose type is in `ALLOWED_IMAGE_TYPES` and whose
size is within the limit is accepted and uploaded, but the set is not exact:
the runtime check only requires the type to start with `"image/"`. -/
theorem allowed_types_accepted (f : JsFile)
    (hmem : f.type ∈ ALLOWED_IMAGE_TYPES)
    (hsize : f.size ≤ 5 * 1024 * 1024) :
    validFile f = true ∧ handleFileChange [f] = ([f], []) := by
  have htp : strStarts f.type "image/" = true := by
    simp [ALLOWED_IMAGE_TYPES] at hmem
    rcases hmem with h | h | h | h | h <;> rw [h] <;> decide
  constructor
  · simp [validFile, htp]
    omega
  · have hs : ¬ f.size > 5 * 1024 * 1024 := by omega
    simp [handleFileChange, hs, htp]

/-- C2 witness: a 100-byte PNG is in the allowed set and is uploaded. -/
theorem allowed_types_accepted_witness :
    validFile ⟨"p.png", 100, "image/png"⟩ = true ∧
    handleFileChange [⟨"p.png", 100, "image/png"⟩]
      = ([⟨"p.png", 100, "image/png"⟩], []) :=
  allowed_types_accepted ⟨"p.png", 100, "image/png"⟩ (by decide) (by decide)

end StoreAdmin

namespace StoreAdmin

/-- C3: with base URL `https://api.x` and token `T`, `prepareImageUrl` maps
the relative path `/img/a.png` to `https://api.x/img/a.png?auth_token=T`,
and returns the absolute foreign URL `https://cdn.y/a.png` unchanged. -/
theorem prepareImageUrl_examples :
    prepareImageUrl "https://api.x" (some "T") "/img/a.png"
      = "https://api.x/img/a.png?auth_token=T" ∧
    prepareImageUrl "https://api.x" (some "T") "https://cdn.y/a.png"
      = "https://cdn.y/a.png" := by
  decide

end StoreAdmin

namespace StoreAdmin

/-- C8: for every absolute URL that contains the configured base URL as a
substring anywhere (`url.includes(API_BASE_URL)`), a non-empty stored token
is appended as a query parameter — the same-API determination is substring
containment, not a prefix check on the URL's origin. -/
theorem prepareImageUrl_substring_containment (base t url : String)
    (habs : (strStarts url "http://" || strStarts url "https://") = true)
    (hinc : stringIncludes url base = true)
    (ht : t ≠ "") :
    prepareImageUrl base (some t) url
      = url ++ (if stringIncludes url "?" then "&" else "?")
          ++ "auth_token=" ++ t := by
  have hbeq : (t == "") = false := by
    simpa using ht
  simp [prepareImageUrl, habs, hinc, hbeq]

/-- C8 witness: a foreign URL that merely embeds the base inside a query
parameter still gets the token appended (with `&`, since a `?` is present). -/
theorem prepareImageUrl_substring_containment_witness :
    (strStarts "https://evil.y/p?u=https://api.x" "http://"
      || strStarts "https://evil.y/p?u=https://api.x" "https://") = true ∧
    stringIncludes "https://evil.y/p?u=https://api.x" "https://api.x" = true ∧
    prepareImageUrl "https://api.x" (some "T") "https://evil.y/p?u=https://api.x"
      = "https://evil.y/p?u=https://api.x&auth_token=T" := by
  refine ⟨by decide, by decide, ?_⟩
  rw [prepareImageUrl_substring_containment "https://api.x" "T"
    "https://evil.y/p?u=https://api.x" (by decide) (by decide) (by decide)]
  decide

end StoreAdmin

namespace StoreAdmin

/-- C9: on the relative branch, a non-empty token is appended as
`?auth_token=<token>` unconditionally, with no check for an existing query
string; a relative URL already containing a `?` therefore yields a result
with (at least) two `?` characters. -/
theorem prepareImageUrl_relative_double_query (base t url : String)
    (hrel : (strStarts url "http://" || strStarts url "https://") = false)
    (ht : t ≠ "")
    (hq : 1 ≤ countQ url) :
    countQ (prepareImageUrl base (some t) url)
      = countQ base + countQ url + countQ t + 1 ∧
    2 ≤ countQ (prepareImageUrl base (some t) url) := by
  have hbeq : (t == "") = false := by
    simpa using ht
  have hone : countQ "?auth_token=" = 1 := by decide
  have hslash : countQ "/" = 0 := by decide
  by_cases hsl : strStarts url "/" = true
  · have hres : prepareImageUrl base (some t) url
        = base ++ url ++ "?auth_token=" ++ t := by
      simp [prepareImageUrl, hrel, hbeq, hsl]
    rw [hres]
    rw [countQ_append, countQ_append, countQ_append, hone]
    omega
  · have hres : prepareImageUrl base (some t) url
        = base ++ "/" ++ url ++ "?auth_token=" ++ t := by
      simp [prepareImageUrl, hrel, hbeq, hsl]
    rw [hres]
    rw [countQ_append, countQ_append, countQ_append, countQ_append, hone, hslash]
    omega

/-- C9 witness: the relative URL `img/a.png?v=1` with token `T` produces a
result with two `?` characters. -/
theorem prepareImageUrl_relative_double_query_witness :
    (strStarts "img/a.png?v=1" "http://"
      || strStarts "img/a.png?v=1" "https://") = false ∧
    1 ≤ countQ "img/a.png?v=1" ∧
    2 ≤ countQ (prepareImageUrl "https://api.x" (some "T") "img/a.png?v=1") :=
  ⟨by decide, by decide,
    (prepareImageUrl_relative_double_query "https://api.x" "T" "img/a.png?v=1"
      (by decide) (by decide) (by decide)).2⟩

end StoreAdmin

namespace StoreAdmin

/-- C4: when `parentCategoryId` is null, the payload built by `onSubmit`
carries exactly the keys `name`, `description` and `status` — no
`parentCategoryId` key at all — with `status` taken from the independent
active/inactive toggle. -/
theorem buildRequestData_omits_null_parent (data : CategoryFormData)
    (isActive : Bool) (h : data.parentCategoryId = none) :
    buildRequestData data isActive
      = [("name", JsValue.vStr data.name),
         ("description", JsValue.vStr data.description),
         ("status", JsValue.vStr (if isActive then "ACTIVE" else "INACTIVE"))] := by
  simp [buildRequestData, h]

/-- C4 witness: a concrete payload with null parent and the toggle off. -/
theorem buildRequestData_omits_null_parent_witness :
    buildRequestData ⟨"Shoes", "Footwear", none⟩ false
      = [("name", JsValue.vStr "Shoes"),
         ("description", JsValue.vStr "Footwear"),
         ("status", JsValue.vStr "INACTIVE")] :=
  buildRequestData_omits_null_parent ⟨"Shoes", "Footwear", none⟩ false rfl

end StoreAdmin

namespace StoreAdmin

/-- C5: on a successful edit-mode load of a category with id 5, name
`"Shoes"` and parent id 2, the form resets to the fetched name and
description with `parentCategoryId = 2` (and to null when no parent is
present), and the parent dropdown excludes the edited id 5 in edit mode
while excluding nothing in create mode. -/
theorem categoryForm_edit_load (c cNoParent : FetchedCategory)
    (cats : List CategorySummary)
    (hname : c.name = "Shoes") (hpar : c.parentCategory = some ⟨2⟩)
    (hnp : cNoParent.parentCategory = none) :
    (resetValues c).name = "Shoes" ∧
    (resetValues c).description = c.description ∧
    (resetValues c).parentCategoryId = some 2 ∧
    (resetValues cNoParent).parentCategoryId = none ∧
    (parentDropdownCandidates true 5 cats).all (fun s => s.id != 5) = true ∧
    parentDropdownCandidates false 5 cats = cats := by
  refine ⟨?_, ?_, ?_, ?_, ?_, ?_⟩
  · simp [resetValues, hname]
  · simp [resetValues]
  · simp [resetValues, hpar]
  · simp [resetValues, hnp]
  · simp [parentDropdownCandidates, List.all_eq_true, List.mem_filter]
  · simp [parentDropdownCandidates]

/-- C5 witness: concrete fetched categories and a dropdown list containing
the edited category itself. -/
theorem categoryForm_edit_load_witness :
    (resetValues ⟨5, "Shoes", "Footwear", some ⟨2⟩, "ACTIVE"⟩).name = "Shoes" ∧
    (resetValues ⟨5, "Shoes", "Footwear", some ⟨2⟩, "ACTIVE"⟩).parentCategoryId
      = some 2 ∧
    (resetValues ⟨7, "Hats", "Headwear", none, "ACTIVE"⟩).parentCategoryId
      = none ∧
    (parentDropdownCandidates true 5 [⟨5, "Shoes"⟩, ⟨2, "Bags"⟩]).all
      (fun s => s.id != 5) = true ∧
    parentDropdownCandidates false 5 [⟨5, "Shoes"⟩, ⟨2, "Bags"⟩]
      = [⟨5, "Shoes"⟩, ⟨2, "Bags"⟩] := by
  have h := categoryForm_edit_load ⟨5, "Shoes", "Footwear", some ⟨2⟩, "ACTIVE"⟩
    ⟨7, "Hats", "Headwear", none, "ACTIVE"⟩ [⟨5, "Shoes"⟩, ⟨2, "Bags"⟩]
    rfl rfl rfl
  exact ⟨h.1, h.2.2.1, h.2.2.2.1, h.2.2.2.2.1, h.2.2.2.2.2⟩

end StoreAdmin

namespace StoreAdmin

/-- C10: on edit-mode load, a fetched parent with id 0 resets
`parentCategoryId` to null rather than 0, because the falsy-or
`parentCategory?.id || null` collapses the falsy number 0 to null. -/
theorem resetValues_zero_parent_collapses (c : FetchedCategory) (p : ParentRef)
    (hp : c.parentCategory = some p) (h0 : p.id = 0) :
    (resetValues c).parentCategoryId = none := by
  simp [resetValues, hp, h0]

/-- C10 witness: a category whose parent has id 0 resets to a null parent. -/
theorem resetValues_zero_parent_collapses_witness :
    (resetValues ⟨9, "Belts", "Accessories", some ⟨0⟩, "ACTIVE"⟩).parentCategoryId
      = none :=
  resetValues_zero_parent_collapses ⟨9, "Belts", "Accessories", some ⟨0⟩, "ACTIVE"⟩
    ⟨0⟩ rfl rfl

end StoreAdmin

namespace StoreAdmin

/-- C6: submitting with an empty name or an empty description produces a
per-field schema error, the submit handler is never invoked, and the attempt
issues no network call (and shows no notification, performs no navigation). -/
theorem empty_field_blocks_submit (data : CategoryFormData)
    (isEditMode : Bool) (editedId : Int) (isActive : Bool)
    (result : SubmitResult)
    (h : data.name = "" ∨ data.description = "") :
    schemaValidate data ≠ [] ∧
    (data.name = "" →
      FieldError.mk "name" "Category name is required" ∈ schemaValidate data) ∧
    (data.description = "" →
      FieldError.mk "description" "Description is required" ∈ schemaValidate data) ∧
    handleSubmitGate data = none ∧
    submitAttempt isEditMode editedId isActive data result = ([], [], none) := by
  have hne : schemaValidate data ≠ [] := by
    rcases h with h | h <;>
      simp [schemaValidate, h]
  have hgate : handleSubmitGate data = none := by
    simp only [handleSubmitGate, beq_iff_eq]
    exact if_neg hne
  refine ⟨hne, ?_, ?_, hgate, ?_⟩
  · intro hn
    simp [schemaValidate, hn]
  · intro hd
    simp [schemaValidate, hd]
  · simp [submitAttempt, hgate]

/-- C6 witness: an empty name with a non-empty description blocks the submit. -/
theorem empty_field_blocks_submit_witness :
    schemaValidate ⟨"", "Footwear", none⟩ ≠ [] ∧
    handleSubmitGate ⟨"", "Footwear", none⟩ = none ∧
    submitAttempt false 0 true ⟨"", "Footwear", none⟩
      (SubmitResult.ok ⟨"SUCCESS", none⟩) = ([], [], none) := by
  have h := empty_field_blocks_submit ⟨"", "Footwear", none⟩ false 0 true
    (SubmitResult.ok ⟨"SUCCESS", none⟩) (Or.inl rfl)
  exact ⟨h.1, h.2.2.2.1, h.2.2.2.2⟩

end StoreAdmin

namespace StoreAdmin

/-- C7: after a submit, a response with status `"SUCCESS"` yields a success
notification and navigation to the category list; any other status yields an
error notification carrying the server message or the `"Unknown error"`
fallback, with no navigation; a thrown error yields an error notification
surfacing the thrown message; and exactly one service call is made, so no
retry occurs. -/
theorem onSubmit_response_handling (isEditMode : Bool) (editedId : Int)
    (payload : List (String × JsValue))
    (rOk rErr : ApiResponse) (em : Option String)
    (hOk : rOk.status = "SUCCESS") (hErr : rErr.status ≠ "SUCCESS") :
    onSubmitOutcome isEditMode (SubmitResult.ok rOk)
      = ([savingNotif,
          ⟨if isEditMode then "Category updated successfully"
           else "Category created successfully", "success"⟩],
         some "/categories") ∧
    onSubmitOutcome isEditMode (SubmitResult.ok rErr)
      = ([savingNotif,
          ⟨"Failed to " ++ (if isEditMode then "update" else "create")
            ++ " category: " ++ respMsgOrUnknown rErr.message, "error"⟩],
         none) ∧
    onSubmitOutcome isEditMode (SubmitResult.thrown em)
      = ([savingNotif,
          ⟨"Error: " ++ (match em with | some s => s | none => "Unknown error"),
           "error"⟩],
         none) ∧
    (onSubmitCalls isEditMode editedId payload).length = 1 := by
  refine ⟨?_, ?_, ?_, ?_⟩
  · simp [onSubmitOutcome, hOk]
  · simp [onSubmitOutcome, hErr]
  · simp [onSubmitOutcome]
  · simp [onSubmitCalls]

/-- C7 witness: concrete success, failure and thrown outcomes in edit mode. -/
theorem onSubmit_response_handling_witness :
    onSubmitOutcome true (SubmitResult.ok ⟨"SUCCESS", none⟩)
      = ([savingNotif, ⟨"Category updated successfully", "success"⟩],
         some "/categories") ∧
    onSubmitOutcome true (SubmitResult.ok ⟨"ERROR", some "boom"⟩)
      = ([savingNotif, ⟨"Failed to update category: boom", "error"⟩], none) ∧
    onSubmitOutcome true (SubmitResult.thrown (some "oops"))
      = ([savingNotif, ⟨"Error: oops", "error"⟩], none) ∧
    (onSubmitCalls true 3 []).length = 1 := by
  have h := onSubmit_response_handling true 3 []
    ⟨"SUCCESS", none⟩ ⟨"ERROR", some "boom"⟩ (some "oops") rfl (by decide)
  exact ⟨h.1, h.2.1, h.2.2.1, h.2.2.2⟩

end StoreAdmin
